import Mathlib

/-!
Verification development for the mineral-dashboard selection-and-aggregation
pipeline (file MAP.py of the repository).

The pandas program is shallowly embedded as follows:

* a DataFrame row becomes a `Row`: the six structural fields plus an
  association list for the extra (indicator) columns;
* a cell of an extra column is a `Cell` (number, string, or missing), so
  that the dtype test of the catalog builder (line 32 of MAP.py) is
  expressible: a column has numeric dtype exactly when no cell of it holds
  a string;
* missing values (NaN) become `Option.none` or `Cell.na`; quantities and
  indicator values are modelled as integers and year cells as rationals:
  every claim below concerns sums, zero-fill, positivity filters, string
  catalogs and branch selection, none of which depends on values being
  non-integral, and integer arithmetic is kernel-computable;
* the one-shot data load and cleaning (line 19) becomes `load`;
* the callback `update_map` (lines 86-113) becomes `update_map`, returning
  `Except Unit ViewResult`; the error case models the KeyError raised by
  selecting a column that does not exist (line 91).

Pandas behaviours relied on and mirrored here:
* `groupby` with default settings drops rows whose key is missing and
  returns groups sorted by key; `sum` over a group treats NaN as 0;
* `pd.merge ... how=outer` takes the union of keys, sorted
  lexicographically, and `fillna(0)` zero-fills the absent side;
* boolean-mask indexing with a mask over the full frame (lines 94-95 use
  a mask built from df to index year_df) reindexes the mask to the
  indexed frame, hence is equivalent to filtering year_df itself;
* assigning a shorter series to a column (line 19) aligns on the index:
  positions dropped by `dropna` come back as NaN, so no row is removed.
-/

namespace MAP

/-- A cell value of a DataFrame column: a number, a string, or missing. -/
inductive Cell where
  | num (z : ℤ)
  | str (s : String)
  | na
deriving DecidableEq

/-- View an optional string as a cell. -/
def Cell.ofStr : Option String → Cell
  | some s => .str s
  | none => .na

/-- View an optional number as a cell. -/
def Cell.ofNum : Option ℤ → Cell
  | some q => .num q
  | none => .na

/-- True unless the cell holds a string: a pandas column has dtype int64 or
float64 exactly when every cell of it is a number or NaN. -/
def Cell.isNumOrNa : Cell → Bool
  | .str _ => false
  | _ => true

/-- One row of the table. `year` holds the numeric coercion of the Year
cell (`pd.to_numeric` with coerce), `none` when the cell fails coercion.
`extra` holds the cells of the non-structural (indicator) columns. -/
structure Row where
  country : Option String
  year : Option ℚ
  prodMineral : Option String
  prodQty : Option ℤ
  impMineral : Option String
  impQty : Option ℤ
  extra : List (String × Cell)
deriving DecidableEq

/-- The loaded table: the names of the extra columns and the rows. -/
structure Table where
  indCols : List String
  rows : List Row
deriving DecidableEq

/-- The six structural column names, line 31 of MAP.py. -/
def knownCols : List String :=
  ["Country", "Year", "Production Mineral", "Production Qty",
   "Import Mineral Name", "Import Qty"]

/-- All column names of the frame: structural columns then extra columns. -/
def colNames (t : Table) : List String := knownCols ++ t.indCols

/-- The cell a row holds in a named column. -/
def Row.cell (r : Row) (c : String) : Cell :=
  if c = "Country" then Cell.ofStr r.country
  else if c = "Year" then (match r.year with | some q => Cell.num ⌊q⌋ | none => Cell.na)
  else if c = "Production Mineral" then Cell.ofStr r.prodMineral
  else if c = "Production Qty" then Cell.ofNum r.prodQty
  else if c = "Import Mineral Name" then Cell.ofStr r.impMineral
  else if c = "Import Qty" then Cell.ofNum r.impQty
  else (r.extra.lookup c).getD Cell.na

/-- Column dtype test of line 32: dtype is int64 or float64 exactly when no
cell of the column holds a string. -/
def isNumericCol (t : Table) (c : String) : Bool :=
  t.rows.all (fun r => (r.cell c).isNumOrNa)

/-- Lexicographic comparison of character lists by code point, the string
order the sorted builtin of Python uses. -/
def lexLe : List Char → List Char → Bool
  | [], _ => true
  | _ :: _, [] => false
  | a :: as, b :: bs => if a = b then lexLe as bs else decide (a < b)

/-- Lexicographic comparison of strings. -/
def strLe (a b : String) : Bool := lexLe a.data b.data

/-- The string order as a relation, for the sorting lemmas. -/
def strRel (a b : String) : Prop := strLe a b = true

instance : DecidableRel strRel :=
  fun a b => inferInstanceAs (Decidable (strLe a b = true))

/-- Lexicographic sort, the semantics of the sorted builtin on strings. -/
def sortStr (l : List String) : List String :=
  List.insertionSort strRel l

/-- Truncation toward zero, the semantics of astype(int) on a float. -/
def ratTrunc (q : ℚ) : ℤ := if 0 ≤ q then ⌊q⌋ else ⌈q⌉

/-- Line 19 of MAP.py. The cleaned series
`pd.to_numeric(df[Year], errors=coerce).dropna().astype(int)` is assigned
back to the column; the assignment aligns on the row index, so the
positions removed by dropna reappear as NaN and no row leaves the frame:
each surviving year value is truncated to an integer, a year that failed
coercion stays missing, every row is kept. -/
def load (rows : List Row) : List Row :=
  rows.map (fun r => { r with year := r.year.map (fun q => ((ratTrunc q : ℤ) : ℚ)) })

/-- Line 26: sorted distinct non-null production-mineral names. -/
def prod_minerals (t : Table) : List String :=
  sortStr (t.rows.filterMap (fun r => r.prodMineral)).dedup

/-- Line 27: sorted distinct non-null import-mineral names. -/
def import_minerals (t : Table) : List String :=
  sortStr (t.rows.filterMap (fun r => r.impMineral)).dedup

/-- Line 28: sorted(list(set(prod_minerals + import_minerals))). -/
def all_minerals (t : Table) : List String :=
  sortStr (prod_minerals t ++ import_minerals t).dedup

/-- Line 29: the sentinel entry prepended to the mineral dropdown. -/
def allMineralsSentinel : String := "--- All Minerals ---"

/-- Line 29: dropdown options, sentinel first. -/
def all_minerals_with_total (t : Table) : List String :=
  allMineralsSentinel :: all_minerals t

/-- Line 32: sorted numeric non-structural column names. -/
def indicator_cols (t : Table) : List String :=
  sortStr ((colNames t).filter
    (fun c => isNumericCol t c && !(knownCols.contains c) && !(c == "Year")))

/-- Modelled from the spec, for comparison with `all_minerals`: Minerals is
the lexicographically sorted union of the distinct non-null
ProductionMineral and ImportMineralName values. -/
def MineralsSpec (t : Table) : List String :=
  sortStr ((t.rows.filterMap (fun r => r.prodMineral))
            ++ (t.rows.filterMap (fun r => r.impMineral))).dedup

/-- Modelled from the spec, for comparison with `indicator_cols`:
IndicatorNames is the lexicographically sorted list of the columns whose
values are all numeric and that are not among the six structural columns. -/
def IndicatorNamesSpec (t : Table) : List String :=
  sortStr ((colNames t).filter
    (fun c => isNumericCol t c && !(knownCols.contains c)))

/-- Line 87: df[df[Year] == selected_year]. A missing year never equals a
number, so rows with missing year are excluded. -/
def filterByYear (rows : List Row) (y : ℚ) : List Row :=
  rows.filter (fun r => decide (r.year = some y))

/-- The per-country sum a groupby(Country)[qty].sum() produces for key c:
the quantities of the rows whose country is c, missing counted as 0. Rows
with a missing country belong to no group. -/
def sumBy (rows : List Row) (get : Row → Option ℤ) (c : String) : ℤ :=
  ((rows.filter (fun r => decide (r.country = some c))).map
    (fun r => (get r).getD 0)).sum

/-- The group keys of groupby(Country): the distinct non-missing country
names, sorted (groupby sorts keys by default). -/
def groupKeys (rows : List Row) : List String :=
  sortStr (rows.filterMap (fun r => r.country)).dedup

/-- Key column of pd.merge(prod_df, import_df, on=Country, how=outer):
the union of the two key sets, sorted lexicographically. -/
def mergedKeys (prodRows impRows : List Row) : List String :=
  sortStr (groupKeys prodRows ++ groupKeys impRows).dedup

/-- The pipeline output: the choropleth inputs of lines 115-118.
`entries` pairs locations with z values; `custom` is the customdata
(production, import) rows of the Combined view, aligned with `entries`. -/
structure ViewResult where
  entries : List (String × ℤ)
  custom : Option (List (ℤ × ℤ))
  hover : String
  colorbar : String
deriving DecidableEq

/-- Line 113: colorbar title of the mineral views, unit from line 23. -/
def quantityTitle : String := "Quantity (tonnes)"

/-- Line 103: hover template of the Production view. -/
def prodHover : String :=
  "<b>%\x7blocation\x7d</b><br>Production: %\x7bz:,.0f\x7d (tonnes)<extra></extra>"

/-- Line 106: hover template of the Import view. -/
def impHover : String :=
  "<b>%\x7blocation\x7d</b><br>Import: %\x7bz:,.0f\x7d (tonnes)<extra></extra>"

/-- Line 110: hover template of the Combined view. -/
def combinedHover : String :=
  "<b>%\x7blocation\x7d</b><br>Production: %\x7bcustomdata[0]:,.0f\x7d<br>Import: %\x7bcustomdata[1]:,.0f\x7d<extra></extra>"

/-- Line 92: hover template of the indicator view, two decimal places. -/
def indHover (i : String) : String :=
  "<b>%\x7blocation\x7d</b><br>" ++ i ++ ": %\x7bz:,.2f\x7d<extra></extra>"

/-- The data-type dropdown values of line 49. -/
inductive DataType where
  | Production
  | Import
  | Combined
deriving DecidableEq

/-- Lines 97-113: group each scoped row set by country, outer-join with
zero fill (a key absent from one side sums over no rows, hence gets 0,
exactly the fillna), project by data type with the positivity filter, and
assemble the choropleth inputs. The to_numeric/fillna coercion of lines
98-99 is the identity here since quantities are already numbers. -/
def aggregateScoped (prodRows impRows : List Row) (dt : DataType) : ViewResult :=
  let keys := mergedKeys prodRows impRows
  let p := fun c => sumBy prodRows (fun r => r.prodQty) c
  let q := fun c => sumBy impRows (fun r => r.impQty) c
  match dt with
  | .Production =>
      { entries := (keys.filter (fun c => decide (0 < p c))).map (fun c => (c, p c)),
        custom := none, hover := prodHover, colorbar := quantityTitle }
  | .Import =>
      { entries := (keys.filter (fun c => decide (0 < q c))).map (fun c => (c, q c)),
        custom := none, hover := impHover, colorbar := quantityTitle }
  | .Combined =>
      let ks := keys.filter (fun c => decide (0 < p c) || decide (0 < q c))
      { entries := ks.map (fun c => (c, p c + q c)),
        custom := some (ks.map (fun c => (p c, q c))),
        hover := combinedHover, colorbar := quantityTitle }

/-- Line 94: the production-side row scope. For the sentinel every row of
the year participates; otherwise only rows of the requested mineral. -/
def prodScope (t : Table) (y : ℚ) (m : String) : List Row :=
  if m = allMineralsSentinel then filterByYear t.rows y
  else (filterByYear t.rows y).filter (fun r => decide (r.prodMineral = some m))

/-- Line 95: the import-side row scope. -/
def impScope (t : Table) (y : ℚ) (m : String) : List Row :=
  if m = allMineralsSentinel then filterByYear t.rows y
  else (filterByYear t.rows y).filter (fun r => decide (r.impMineral = some m))

/-- The mineral/data-type branch of the callback (lines 93-113). -/
def mineralView (t : Table) (y : ℚ) (m : String) (dt : DataType) : ViewResult :=
  aggregateScoped (prodScope t y m) (impScope t y m) dt

/-- Lines 91-92: select Country and the indicator column, drop rows where
either is missing, keep the row order of the filtered frame.
A present cell of a catalog indicator column is always a number (the
column is numeric), which is the domain of every claim below; a string
cell yields no entry here. -/
def indicatorView (rows : List Row) (i : String) : ViewResult :=
  { entries := rows.filterMap (fun r =>
      match r.country, r.cell i with
      | some c, Cell.num v => some (c, v)
      | _, _ => none),
    custom := none, hover := indHover i, colorbar := i }

/-- Line 91: year_df[[Country, ind]] raises a KeyError exactly when the
named column is absent from the frame; otherwise the indicator view. -/
def extractIndicator (t : Table) (rows : List Row) (i : String) :
    Except Unit ViewResult :=
  if i ∈ colNames t then .ok (indicatorView rows i) else .error ()

/-- The callback update_map, lines 86-113. A None or empty indicator is
falsy in Python, so only a non-empty indicator takes the indicator path. -/
def update_map (t : Table) (y : ℚ) (m : String) (dt : DataType)
    (ind : Option String) : Except Unit ViewResult :=
  match ind with
  | some i =>
      if i = "" then .ok (mineralView t y m dt)
      else extractIndicator t (filterByYear t.rows y) i
  | none => .ok (mineralView t y m dt)

instance : DecidableEq (Except Unit ViewResult) := fun a b =>
  match a, b with
  | .ok x, .ok y =>
      if h : x = y then .isTrue (by rw [h]) else .isFalse (by simp [h])
  | .ok _, .error _ => .isFalse (by simp)
  | .error _, .ok _ => .isFalse (by simp)
  | .error x, .error y => .isTrue (by rw [Unit.ext x y])

/-- Sum of the z values of a pipeline outcome; an error contributes 0. -/
def entriesSum : Except Unit ViewResult → ℤ
  | .ok v => (v.entries.map (fun e => e.2)).sum
  | .error _ => 0

/-- Whether the pipeline returned a result rather than raising. -/
def isOkB : Except Unit ViewResult → Bool
  | .ok _ => true
  | .error _ => false

/-- Entries of a Combined view zipped with their customdata rows. -/
def combinedRows (v : ViewResult) : List ((String × ℤ) × (ℤ × ℤ)) :=
  v.entries.zip (v.custom.getD [])

/-- Example rows, after the example of the spec (section 8). -/
def rIndia : Row :=
  ⟨some "India", some 2020, some "Iron", some 100, some "Iron", some 20,
   [("GDP", Cell.num 3)]⟩

/-- Second example row: production only, no import data. -/
def rChina : Row :=
  ⟨some "China", some 2020, some "Iron", some 200, none, none,
   [("GDP", Cell.na)]⟩

/-- Third example row: import only, no production data. -/
def rGhana : Row :=
  ⟨some "Ghana", some 2020, none, none, some "Iron", some 7,
   [("GDP", Cell.num 2)]⟩

/-- Example table with one extra column GDP. -/
def tEx : Table := ⟨["GDP"], [rIndia, rChina, rGhana]⟩

/-- A row whose Year cell fails numeric coercion. -/
def rBadYear : Row := ⟨some "Atlantis", none, none, some 5, none, none, []⟩

/-- A row with a production quantity but a missing country. -/
def rNoCountry : Row := ⟨none, some 2020, some "Iron", some 100, none, none, []⟩

/-- Table holding only the missing-country row. -/
def tNoCountry : Table := ⟨[], [rNoCountry]⟩

/-- A row whose production mineral is literally the sentinel string. -/
def rSentinelMineral : Row :=
  ⟨some "Peru", some 2020, some "--- All Minerals ---", some 4, none, none, []⟩

/-- Table holding the sentinel-named mineral. -/
def tSentinel : Table := ⟨[], [rSentinelMineral]⟩

/-! ### Order facts about the string comparison -/

theorem lexLe_total : ∀ a b : List Char, lexLe a b = true ∨ lexLe b a = true
  | [], _ => Or.inl rfl
  | _ :: _, [] => Or.inr rfl
  | a :: as, b :: bs => by
    by_cases hab : a = b
    · subst hab
      simpa [lexLe] using lexLe_total as bs
    · rcases lt_or_gt_of_ne hab with h | h
      · exact Or.inl (by simp [lexLe, hab, h])
      · exact Or.inr (by simp [lexLe, Ne.symm hab, h, not_lt_of_gt h])

theorem lexLe_trans : ∀ {a b c : List Char},
    lexLe a b = true → lexLe b c = true → lexLe a c = true
  | [], _, _, _, _ => rfl
  | _ :: _, [], _, h1, _ => by simp [lexLe] at h1
  | _ :: _, _ :: _, [], _, h2 => by simp [lexLe] at h2
  | a :: as, b :: bs, c :: cs, h1, h2 => by
    by_cases hab : a = b <;> by_cases hbc : b = c
    · subst hab; subst hbc
      simp only [lexLe, if_pos rfl] at h1 h2 ⊢
      exact lexLe_trans h1 h2
    · subst hab
      simpa [lexLe, hbc] using h2
    · subst hbc
      simpa [lexLe, hab] using h1
    · simp only [lexLe, if_neg hab, decide_eq_true_eq] at h1
      simp only [lexLe, if_neg hbc, decide_eq_true_eq] at h2
      have hac : a < c := lt_trans h1 h2
      simp [lexLe, ne_of_lt hac, hac]

theorem lexLe_antisymm : ∀ {a b : List Char},
    lexLe a b = true → lexLe b a = true → a = b
  | [], [], _, _ => rfl
  | [], _ :: _, _, h2 => by simp [lexLe] at h2
  | _ :: _, [], h1, _ => by simp [lexLe] at h1
  | a :: as, b :: bs, h1, h2 => by
    by_cases hab : a = b
    · subst hab
      simp only [lexLe, if_pos rfl] at h1 h2
      rw [lexLe_antisymm h1 h2]
    · simp only [lexLe, if_neg hab, decide_eq_true_eq] at h1
      simp only [lexLe, if_neg (Ne.symm hab), decide_eq_true_eq] at h2
      exact absurd h2 (lt_asymm h1)

theorem sortStr_perm (l : List String) : List.Perm (sortStr l) l :=
  List.perm_insertionSort strRel l

theorem sortStr_sorted (l : List String) : List.Sorted strRel (sortStr l) := by
  haveI : IsTotal String strRel := ⟨fun a b => lexLe_total a.data b.data⟩
  haveI : IsTrans String strRel := ⟨fun _ _ _ h1 h2 => lexLe_trans h1 h2⟩
  exact List.sorted_insertionSort strRel l

theorem sortStr_eq_of_perm {l₁ l₂ : List String} (h : List.Perm l₁ l₂) :
    sortStr l₁ = sortStr l₂ := by
  haveI : IsAntisymm String strRel :=
    ⟨fun a b h1 h2 => by
      have h := lexLe_antisymm h1 h2
      cases a; cases b; exact congrArg String.mk h⟩
  exact List.eq_of_perm_of_sorted
    ((sortStr_perm l₁).trans (h.trans (sortStr_perm l₂).symm))
    (sortStr_sorted l₁) (sortStr_sorted l₂)

theorem mem_sortStr {a : String} {l : List String} : a ∈ sortStr l ↔ a ∈ l :=
  (sortStr_perm l).mem_iff

theorem sortStr_nodup {l : List String} (h : l.Nodup) : (sortStr l).Nodup :=
  ((sortStr_perm l).nodup_iff).mpr h

/-! ### Facts about the grouped sums -/

theorem sum_map_addZ (l : List String) (f g : String → ℤ) :
    (l.map (fun c => f c + g c)).sum = (l.map f).sum + (l.map g).sum := by
  induction l with
  | nil => simp
  | cons a l ih => simp [ih]; ring

theorem sum_ite_eq_zero (a : String) (v : ℤ) :
    ∀ l : List String, a ∉ l →
      (l.map (fun c => if a = c then v else 0)).sum = 0
  | [], _ => rfl
  | b :: l, h => by
    have hab : a ≠ b := fun hh => h (hh ▸ List.mem_cons_self b l)
    have hl : a ∉ l := fun hh => h (List.mem_cons_of_mem b hh)
    simp [hab, sum_ite_eq_zero a v l hl]

theorem sum_ite_eq_single (a : String) (v : ℤ) :
    ∀ l : List String, l.Nodup → a ∈ l →
      (l.map (fun c => if a = c then v else 0)).sum = v
  | b :: l, hnd, hmem => by
    rcases List.mem_cons.mp hmem with hab | hl
    · subst hab
      have : a ∉ l := (List.nodup_cons.mp hnd).1
      simp [sum_ite_eq_zero a v l this]
    · have hab : a ≠ b := fun hh => (List.nodup_cons.mp hnd).1 (hh ▸ hl)
      simp [hab, sum_ite_eq_single a v l (List.nodup_cons.mp hnd).2 hl]

theorem sumBy_cons (r : Row) (rows : List Row) (get : Row → Option ℤ) (c : String) :
    sumBy (r :: rows) get c
      = (if r.country = some c then (get r).getD 0 else 0) + sumBy rows get c := by
  by_cases h : r.country = some c <;> simp [sumBy, h]

theorem sumBy_nonneg (rows : List Row) (get : Row → Option ℤ) (c : String)
    (h : ∀ r ∈ rows, 0 ≤ (get r).getD 0) : 0 ≤ sumBy rows get c := by
  refine List.sum_nonneg ?_
  intro x hx
  rcases List.mem_map.mp hx with ⟨r, hr, rfl⟩
  exact h r (List.mem_filter.mp hr).1

theorem sumBy_eq_zero (rows : List Row) (get : Row → Option ℤ) (c : String)
    (h : ∀ r ∈ rows, r.country ≠ some c) : sumBy rows get c = 0 := by
  have : rows.filter (fun r => decide (r.country = some c)) = [] :=
    List.filter_eq_nil_iff.mpr (by simpa using h)
  simp [sumBy, this]

theorem exists_country_of_sumBy_ne_zero (rows : List Row) (get : Row → Option ℤ)
    (c : String) (h : sumBy rows get c ≠ 0) : ∃ r ∈ rows, r.country = some c := by
  by_contra hc
  push_neg at hc
  exact h (sumBy_eq_zero rows get c hc)

/-- Summing the per-country group sums over any duplicate-free key list that
covers every country of the rows gives the total over the rows that have a
country. -/
theorem sum_sumBy (keys : List String) (hnd : keys.Nodup) (get : Row → Option ℤ) :
    ∀ rows : List Row, (∀ r ∈ rows, ∀ c, r.country = some c → c ∈ keys) →
      (keys.map (fun c => sumBy rows get c)).sum
        = ((rows.filter (fun r => r.country.isSome)).map
            (fun r => (get r).getD 0)).sum
  | [], _ => by
    have : ∀ c : String, sumBy ([] : List Row) get c = 0 := fun c => rfl
    simp [this]
  | r :: rows, hcov => by
    have hrest : ∀ r ∈ rows, ∀ c, r.country = some c → c ∈ keys :=
      fun r hr => hcov r (List.mem_cons_of_mem _ hr)
    have ih := sum_sumBy keys hnd get rows hrest
    have hsplit : (keys.map (fun c => sumBy (r :: rows) get c)).sum
        = (keys.map (fun c => if r.country = some c then (get r).getD 0 else 0)).sum
          + (keys.map (fun c => sumBy rows get c)).sum := by
      rw [← sum_map_addZ]
      simp only [sumBy_cons]
    rcases hr : r.country with _ | a
    · have hzero : (keys.map (fun c =>
          if r.country = some c then (get r).getD 0 else 0)).sum = 0 := by
        refine List.sum_eq_zero ?_
        intro x hx
        rcases List.mem_map.mp hx with ⟨cc, _, rfl⟩
        simp [hr]
      rw [hsplit, hzero, ih]
      simp [List.filter_cons, hr]
    · have ha : a ∈ keys := hcov r (List.mem_cons_self r rows) a hr
      have hfun : (fun c => if r.country = some c then (get r).getD 0 else 0)
          = (fun c => if a = c then (get r).getD 0 else 0) := by
        funext c
        simp [hr]
      have hone : (keys.map (fun c =>
          if r.country = some c then (get r).getD 0 else 0)).sum = (get r).getD 0 := by
        rw [hfun]
        exact sum_ite_eq_single a ((get r).getD 0) keys hnd ha
      rw [hsplit, hone, ih]
      simp [List.filter_cons, hr]

theorem sum_filter_pos (f : String → ℤ) :
    ∀ l : List String, (∀ c ∈ l, 0 ≤ f c) →
      ((l.filter (fun c => decide (0 < f c))).map f).sum = (l.map f).sum
  | [], _ => rfl
  | c :: l, h => by
    have hc := h c (List.mem_cons_self c l)
    have hl := fun x hx => h x (List.mem_cons_of_mem c hx)
    by_cases hpos : 0 < f c
    · simp [List.filter_cons, hpos, sum_filter_pos f l hl]
    · have : f c = 0 := le_antisymm (not_lt.mp hpos) hc
      simp [List.filter_cons, hpos, sum_filter_pos f l hl, this]

theorem mem_groupKeys {rows : List Row} {c : String} :
    c ∈ groupKeys rows ↔ ∃ r ∈ rows, r.country = some c := by
  simp [groupKeys, mem_sortStr, List.mem_dedup, List.mem_filterMap]

theorem mem_mergedKeys {prodRows impRows : List Row} {c : String} :
    c ∈ mergedKeys prodRows impRows
      ↔ c ∈ groupKeys prodRows ∨ c ∈ groupKeys impRows := by
  simp [mergedKeys, mem_sortStr, List.mem_dedup, List.mem_append]

theorem mergedKeys_nodup (prodRows impRows : List Row) :
    (mergedKeys prodRows impRows).Nodup :=
  sortStr_nodup (List.nodup_dedup _)

theorem prodScope_sub {t : Table} {y : ℚ} {m : String} :
    ∀ r ∈ prodScope t y m, r ∈ filterByYear t.rows y := by
  intro r hr
  unfold prodScope at hr
  split at hr
  · exact hr
  · exact (List.mem_filter.mp hr).1

theorem impScope_sub {t : Table} {y : ℚ} {m : String} :
    ∀ r ∈ impScope t y m, r ∈ filterByYear t.rows y := by
  intro r hr
  unfold impScope at hr
  split at hr
  · exact hr
  · exact (List.mem_filter.mp hr).1

theorem filterByYear_sub {rows : List Row} {y : ℚ} :
    ∀ r ∈ filterByYear rows y, r ∈ rows :=
  fun _ hr => (List.mem_filter.mp hr).1

/-! ### The claims -/

/-- Claim C1. The claim says rows whose Year fails integer coercion are
dropped during load. The code does not drop them: line 19 assigns the
cleaned-and-dropped series back to the Year column, pandas realigns it on
the row index, and the dropped positions reappear as NaN. `load` keeps
every row (first conjunct); in particular the row `rBadYear`, whose Year
cell fails coercion, survives the load unchanged with a missing Year
(second and third conjuncts). -/
theorem C1_load_keeps_uncoercible_rows :
    (∀ rows : List Row, (load rows).length = rows.length)
    ∧ load [rBadYear] = [rBadYear] ∧ rBadYear.year = none :=
  ⟨fun rows => by simp [load], rfl, rfl⟩

/-- Claim C2. Two requests with the same non-empty indicator produce the
same result whatever their mineral and data type: the indicator branch of
`update_map` never consults them. -/
theorem C2_indicator_ignores_mineral (t : Table) (y : ℚ) (m₁ m₂ : String)
    (dt₁ dt₂ : DataType) (i : String) (h : i ≠ "") :
    update_map t y m₁ dt₁ (some i) = update_map t y m₂ dt₂ (some i) := by
  simp [update_map, h]

/-- Witness for C2 at a concrete table and two diverging requests. -/
theorem C2_witness :
    update_map tEx 2020 "Iron" DataType.Production (some "GDP")
      = update_map tEx 2020 "Copper" DataType.Import (some "GDP") :=
  C2_indicator_ignores_mineral tEx 2020 "Iron" "Copper"
    DataType.Production DataType.Import "GDP" (by decide)

/-- For the all-minerals scope, the displayed per-country sums add up to
the total of the quantity over the rows that have a country, provided all
quantities are nonnegative (the positivity filter then only discards
countries whose sum is exactly 0). -/
theorem aggregate_all_sum (rows : List Row) (get : Row → Option ℤ)
    (hpos : ∀ r ∈ rows, 0 ≤ (get r).getD 0) :
    (((mergedKeys rows rows).filter
        (fun c => decide (0 < sumBy rows get c))).map
          (fun c => sumBy rows get c)).sum
      = ((rows.filter (fun r => r.country.isSome)).map
          (fun r => (get r).getD 0)).sum := by
  have hnd := mergedKeys_nodup rows rows
  have hcov : ∀ r ∈ rows, ∀ c, r.country = some c → c ∈ mergedKeys rows rows :=
    fun r hr c hc => mem_mergedKeys.mpr (Or.inl (mem_groupKeys.mpr ⟨r, hr, hc⟩))
  have h1 := sum_filter_pos (fun c => sumBy rows get c) (mergedKeys rows rows)
    (fun c _ => sumBy_nonneg rows get c hpos)
  rw [h1, sum_sumBy _ hnd get rows hcov]

/-- Counterexample to claim C3 as stated. The claim equates the sum of the
displayed values with the sum of the quantity over all rows of the year,
but a row with a missing country belongs to no groupby group: its quantity
is in the total yet in no entry. On `tNoCountry` the entry sum is 0 while
the quantity total of the year is 100. -/
theorem C3_counterexample :
    entriesSum (update_map tNoCountry 2020 allMineralsSentinel
        DataType.Production none) = 0
    ∧ ((filterByYear tNoCountry.rows 2020).map (fun r => r.prodQty.getD 0)).sum = 100
    ∧ entriesSum (update_map tNoCountry 2020 allMineralsSentinel
        DataType.Production none)
      ≠ ((filterByYear tNoCountry.rows 2020).map (fun r => r.prodQty.getD 0)).sum := by
  refine ⟨by decide, by decide, by decide⟩

/-- Claim C3, amended. For the all-minerals sentinel, when every present
quantity is nonnegative, the sum of the displayed values equals the sum of
the quantity over the rows of the year that have a non-missing country
(missing quantities count as 0); production and import alike. Rows with a
missing country are excluded (they belong to no groupby group), and the
nonnegativity is needed because the positivity filter drops countries with
a negative sum. -/
theorem C3_all_minerals_total (t : Table) (y : ℚ)
    (hp : ∀ r ∈ t.rows, 0 ≤ r.prodQty.getD 0)
    (hi : ∀ r ∈ t.rows, 0 ≤ r.impQty.getD 0) :
    entriesSum (update_map t y allMineralsSentinel DataType.Production none)
      = (((filterByYear t.rows y).filter (fun r => r.country.isSome)).map
          (fun r => r.prodQty.getD 0)).sum
    ∧ entriesSum (update_map t y allMineralsSentinel DataType.Import none)
      = (((filterByYear t.rows y).filter (fun r => r.country.isSome)).map
          (fun r => r.impQty.getD 0)).sum := by
  have hp' : ∀ r ∈ filterByYear t.rows y, 0 ≤ r.prodQty.getD 0 :=
    fun r hr => hp r (filterByYear_sub r hr)
  have hi' : ∀ r ∈ filterByYear t.rows y, 0 ≤ r.impQty.getD 0 :=
    fun r hr => hi r (filterByYear_sub r hr)
  constructor
  · have e1 : update_map t y allMineralsSentinel DataType.Production none
        = .ok (aggregateScoped (filterByYear t.rows y) (filterByYear t.rows y)
            DataType.Production) := by
      simp [update_map, mineralView, prodScope, impScope]
    rw [e1]
    simp only [entriesSum, aggregateScoped, List.map_map]
    exact aggregate_all_sum (filterByYear t.rows y) (fun r => r.prodQty) hp'
  · have e1 : update_map t y allMineralsSentinel DataType.Import none
        = .ok (aggregateScoped (filterByYear t.rows y) (filterByYear t.rows y)
            DataType.Import) := by
      simp [update_map, mineralView, prodScope, impScope]
    rw [e1]
    simp only [entriesSum, aggregateScoped, List.map_map]
    exact aggregate_all_sum (filterByYear t.rows y) (fun r => r.impQty) hi'

/-- Witness for the amended C3 at the example table: 100 + 200 = 300 of
production and 20 + 7 = 27 of import. -/
theorem C3_witness :
    entriesSum (update_map tEx 2020 allMineralsSentinel DataType.Production none)
      = (((filterByYear tEx.rows 2020).filter (fun r => r.country.isSome)).map
          (fun r => r.prodQty.getD 0)).sum
    ∧ entriesSum (update_map tEx 2020 allMineralsSentinel DataType.Import none)
      = (((filterByYear tEx.rows 2020).filter (fun r => r.country.isSome)).map
          (fun r => r.impQty.getD 0)).sum :=
  C3_all_minerals_total tEx 2020 (by decide) (by decide)

/-- Claim C8. The catalog the load builds agrees with the spec description:
the mineral list is the sorted union of the distinct non-null values of the
two mineral columns, and the indicator list is the sorted list of numeric
non-structural columns (the extra `col != Year` test of line 32 is
redundant since Year is one of the six structural columns). -/
theorem C8_catalog_spec (t : Table) :
    all_minerals t = MineralsSpec t ∧ indicator_cols t = IndicatorNamesSpec t := by
  constructor
  · apply sortStr_eq_of_perm
    apply (List.perm_ext_iff_of_nodup (List.nodup_dedup _) (List.nodup_dedup _)).mpr
    intro a
    simp [List.mem_dedup, List.mem_append, prod_minerals, import_minerals, mem_sortStr]
  · have hfun : (fun c => isNumericCol t c && !(knownCols.contains c) && !(c == "Year"))
        = (fun c => isNumericCol t c && !(knownCols.contains c)) := by
      funext c
      by_cases hc : knownCols.contains c
      · simp only [hc, Bool.not_true, Bool.and_false, Bool.false_and]
      · have hy : (c == "Year") = false := by
          cases hb : (c == "Year") with
          | false => rfl
          | true =>
            have hcy : c = "Year" := by simpa using hb
            subst hcy
            exact absurd (by decide : knownCols.contains "Year" = true) hc
        simp only [hy, Bool.not_false, Bool.and_true]
    unfold indicator_cols IndicatorNamesSpec
    rw [hfun]

/-- Claim C4. The merge of the two per-country sum maps is an outer join
with zero fill: a country with positive summed production among the
qualifying production rows and no qualifying import row appears in the
Combined view with value equal to its production sum and customdata
(production sum, 0); symmetrically for a country present only on
the import side. Membership in `combinedRows` pairs each entry with the
customdata row at the same index. -/
theorem C4_outer_join_zero_fill (t : Table) (y : ℚ) (m c : String) :
    (0 < sumBy (prodScope t y m) (fun r => r.prodQty) c →
      (∀ r ∈ impScope t y m, r.country ≠ some c) →
      ((c, sumBy (prodScope t y m) (fun r => r.prodQty) c),
        (sumBy (prodScope t y m) (fun r => r.prodQty) c, 0))
        ∈ combinedRows (mineralView t y m DataType.Combined)
      ∧ (mineralView t y m DataType.Combined).custom ≠ none)
    ∧ (0 < sumBy (impScope t y m) (fun r => r.impQty) c →
      (∀ r ∈ prodScope t y m, r.country ≠ some c) →
      ((c, sumBy (impScope t y m) (fun r => r.impQty) c),
        (0, sumBy (impScope t y m) (fun r => r.impQty) c))
        ∈ combinedRows (mineralView t y m DataType.Combined)
      ∧ (mineralView t y m DataType.Combined).custom ≠ none) := by
  have hrows : combinedRows (mineralView t y m DataType.Combined)
      = ((mergedKeys (prodScope t y m) (impScope t y m)).filter
          (fun c => decide (0 < sumBy (prodScope t y m) (fun r => r.prodQty) c)
            || decide (0 < sumBy (impScope t y m) (fun r => r.impQty) c))).map
        (fun c => ((c, sumBy (prodScope t y m) (fun r => r.prodQty) c
                      + sumBy (impScope t y m) (fun r => r.impQty) c),
                   (sumBy (prodScope t y m) (fun r => r.prodQty) c,
                    sumBy (impScope t y m) (fun r => r.impQty) c))) := by
    simp [combinedRows, mineralView, aggregateScoped, List.zip_map']
  have hcustom : (mineralView t y m DataType.Combined).custom ≠ none := by
    simp [mineralView, aggregateScoped]
  constructor
  · intro h1 h2
    have hq0 : sumBy (impScope t y m) (fun r => r.impQty) c = 0 :=
      sumBy_eq_zero _ _ c h2
    have hkey : c ∈ mergedKeys (prodScope t y m) (impScope t y m) :=
      mem_mergedKeys.mpr (Or.inl (mem_groupKeys.mpr
        (exists_country_of_sumBy_ne_zero _ _ c (ne_of_gt h1))))
    have hks : c ∈ (mergedKeys (prodScope t y m) (impScope t y m)).filter
        (fun c => decide (0 < sumBy (prodScope t y m) (fun r => r.prodQty) c)
          || decide (0 < sumBy (impScope t y m) (fun r => r.impQty) c)) :=
      List.mem_filter.mpr ⟨hkey, by simp [h1]⟩
    refine ⟨?_, hcustom⟩
    rw [hrows]
    exact List.mem_map.mpr ⟨c, hks, by rw [hq0, add_zero]⟩
  · intro h1 h2
    have hp0 : sumBy (prodScope t y m) (fun r => r.prodQty) c = 0 :=
      sumBy_eq_zero _ _ c h2
    have hkey : c ∈ mergedKeys (prodScope t y m) (impScope t y m) :=
      mem_mergedKeys.mpr (Or.inr (mem_groupKeys.mpr
        (exists_country_of_sumBy_ne_zero _ _ c (ne_of_gt h1))))
    have hks : c ∈ (mergedKeys (prodScope t y m) (impScope t y m)).filter
        (fun c => decide (0 < sumBy (prodScope t y m) (fun r => r.prodQty) c)
          || decide (0 < sumBy (impScope t y m) (fun r => r.impQty) c)) :=
      List.mem_filter.mpr ⟨hkey, by simp [h1]⟩
    refine ⟨?_, hcustom⟩
    rw [hrows]
    exact List.mem_map.mpr ⟨c, hks, by rw [hp0, zero_add]⟩

/-- Witness for C4 at the example table: China produces 200 of Iron with
no import rows, Ghana imports 7 of Iron with no production rows. -/
theorem C4_witness :
    (("China", sumBy (prodScope tEx 2020 "Iron") (fun r => r.prodQty) "China"),
      (sumBy (prodScope tEx 2020 "Iron") (fun r => r.prodQty) "China", 0))
      ∈ combinedRows (mineralView tEx 2020 "Iron" DataType.Combined)
    ∧ (("Ghana", sumBy (impScope tEx 2020 "Iron") (fun r => r.impQty) "Ghana"),
      (0, sumBy (impScope tEx 2020 "Iron") (fun r => r.impQty) "Ghana"))
      ∈ combinedRows (mineralView tEx 2020 "Iron" DataType.Combined) :=
  ⟨((C4_outer_join_zero_fill tEx 2020 "Iron" "China").1
      (by decide) (by decide)).1,
   ((C4_outer_join_zero_fill tEx 2020 "Iron" "Ghana").2
      (by decide) (by decide)).1⟩

/-- Claim C5. A country whose summed production and summed import over the
qualifying rows are both 0 appears in no Production, Import or Combined
entry list: each branch keeps only countries with a positive value on the
side(s) it displays. -/
theorem C5_zero_country_never_displayed (t : Table) (y : ℚ) (m c : String)
    (dt : DataType) (v : ℤ)
    (hP : sumBy (prodScope t y m) (fun r => r.prodQty) c = 0)
    (hI : sumBy (impScope t y m) (fun r => r.impQty) c = 0) :
    (c, v) ∉ (mineralView t y m dt).entries := by
  intro hmem
  cases dt with
  | Production =>
    simp only [mineralView, aggregateScoped] at hmem
    rcases List.mem_map.mp hmem with ⟨c', hc', heq⟩
    injection heq with hc hv
    subst hc
    have hpos := (List.mem_filter.mp hc').2
    simp only [decide_eq_true_eq] at hpos
    rw [hP] at hpos
    exact lt_irrefl 0 hpos
  | Import =>
    simp only [mineralView, aggregateScoped] at hmem
    rcases List.mem_map.mp hmem with ⟨c', hc', heq⟩
    injection heq with hc hv
    subst hc
    have hpos := (List.mem_filter.mp hc').2
    simp only [decide_eq_true_eq] at hpos
    rw [hI] at hpos
    exact lt_irrefl 0 hpos
  | Combined =>
    simp only [mineralView, aggregateScoped] at hmem
    rcases List.mem_map.mp hmem with ⟨c', hc', heq⟩
    injection heq with hc hv
    subst hc
    have hpos := (List.mem_filter.mp hc').2
    simp only [Bool.or_eq_true, decide_eq_true_eq] at hpos
    rcases hpos with hpos | hpos
    · rw [hP] at hpos
      exact lt_irrefl 0 hpos
    · rw [hI] at hpos
      exact lt_irrefl 0 hpos

/-- Witness for C5: Atlantis has no rows at all, hence both sums are 0,
and no Combined entry carries it. -/
theorem C5_witness :
    ("Atlantis", (5 : ℤ)) ∉ (mineralView tEx 2020 "Iron" DataType.Combined).entries :=
  C5_zero_country_never_displayed tEx 2020 "Iron" "Atlantis"
    DataType.Combined 5 (by decide) (by decide)

/-- Claim C6. A year absent from the data filters to no rows, and both
branches return an ok result with an empty entry list rather than an
error: the mineral branch aggregates nothing, and the indicator branch
(for a name that is a column of the frame) extracts nothing. -/
theorem C6_absent_year_empty (t : Table) (y : ℚ) (m : String) (dt : DataType)
    (i : String) (h : ∀ r ∈ t.rows, r.year ≠ some y) (hne : i ≠ "")
    (hcol : i ∈ colNames t) :
    filterByYear t.rows y = []
    ∧ update_map t y m dt none = .ok (mineralView t y m dt)
    ∧ (mineralView t y m dt).entries = []
    ∧ update_map t y m dt (some i) = .ok (indicatorView (filterByYear t.rows y) i)
    ∧ (indicatorView (filterByYear t.rows y) i).entries = [] := by
  have hyr : filterByYear t.rows y = [] :=
    List.filter_eq_nil_iff.mpr (by simpa using h)
  have hscope_p : prodScope t y m = [] := by
    unfold prodScope
    rw [hyr]
    simp
  have hscope_i : impScope t y m = [] := by
    unfold impScope
    rw [hyr]
    simp
  refine ⟨hyr, rfl, ?_, ?_, ?_⟩
  · unfold mineralView
    rw [hscope_p, hscope_i]
    cases dt <;> rfl
  · simp [update_map, hne, extractIndicator, hcol]
  · rw [hyr]
    rfl

/-- Witness for C6: the year 1999 has no rows in the example table. -/
theorem C6_witness :
    filterByYear tEx.rows 1999 = []
    ∧ update_map tEx 1999 "Iron" DataType.Combined none
        = .ok (mineralView tEx 1999 "Iron" DataType.Combined)
    ∧ (mineralView tEx 1999 "Iron" DataType.Combined).entries = []
    ∧ update_map tEx 1999 "Iron" DataType.Combined (some "GDP")
        = .ok (indicatorView (filterByYear tEx.rows 1999) "GDP")
    ∧ (indicatorView (filterByYear tEx.rows 1999) "GDP").entries = [] :=
  C6_absent_year_empty tEx 1999 "Iron" DataType.Combined "GDP"
    (by decide) (by decide) (by decide)

/-- Counterexample to claim C7 as stated. The claim says every non-empty
indicator name outside `Catalog.IndicatorNames` makes the indicator path
fail. The code only checks column existence: the structural column
Production Qty is not an indicator name of `tEx`, yet the request
succeeds. -/
theorem C7_counterexample :
    "Production Qty" ≠ ""
    ∧ "Production Qty" ∉ indicator_cols tEx
    ∧ isOkB (update_map tEx 2020 "Iron" DataType.Production
        (some "Production Qty")) = true :=
  ⟨by decide, by decide, by decide⟩

/-- Claim C7, amended (keeping its parenthetical): the indicator path
fails exactly when the name is absent from the columns of the frame; a
non-empty name that is a column but not a catalog indicator silently
returns a result. -/
theorem C7_fails_iff_column_absent (t : Table) (y : ℚ) (m : String)
    (dt : DataType) (i : String) (h : i ≠ "") :
    isOkB (update_map t y m dt (some i)) = false ↔ i ∉ colNames t := by
  simp only [update_map, if_neg h, extractIndicator]
  by_cases hc : i ∈ colNames t
  · simp [hc, isOkB]
  · simp [hc, isOkB]

/-- Witness for the amended C7: a name that is no column of the example
table makes the request fail. -/
theorem C7_witness :
    isOkB (update_map tEx 2020 "Iron" DataType.Production
        (some "No Such Column")) = false
      ↔ "No Such Column" ∉ colNames tEx :=
  C7_fails_iff_column_absent tEx 2020 "Iron" DataType.Production
    "No Such Column" (by decide)

/-- Claim C9. For a catalog indicator, the pipeline succeeds and returns
exactly the (country, value) pairs of the year rows where both country and
the indicator cell are present, in the row order of the filtered table,
with no customdata, the colorbar titled by the indicator name, and the
hover template embedding the indicator name with a two-decimal value
format. -/
theorem C9_indicator_extraction (t : Table) (y : ℚ) (m : String)
    (dt : DataType) (i : String) (hcat : i ∈ indicator_cols t) (hne : i ≠ "") :
    update_map t y m dt (some i) = .ok (indicatorView (filterByYear t.rows y) i)
    ∧ (indicatorView (filterByYear t.rows y) i).entries
        = (filterByYear t.rows y).filterMap (fun r =>
            match r.country, r.cell i with
            | some c, Cell.num v => some (c, v)
            | _, _ => none)
    ∧ (indicatorView (filterByYear t.rows y) i).custom = none
    ∧ (indicatorView (filterByYear t.rows y) i).hover
        = "<b>%\x7blocation\x7d</b><br>" ++ i ++ ": %\x7bz:,.2f\x7d<extra></extra>"
    ∧ (indicatorView (filterByYear t.rows y) i).colorbar = i
    ∧ (∀ r ∈ t.rows, (r.cell i).isNumOrNa = true) := by
  have h0 : i ∈ sortStr ((colNames t).filter
      (fun c => isNumericCol t c && !(knownCols.contains c) && !(c == "Year"))) := hcat
  have hmem := List.mem_filter.mp (mem_sortStr.mp h0)
  have hcol : i ∈ colNames t := hmem.1
  have hnum : ∀ r ∈ t.rows, (r.cell i).isNumOrNa = true := by
    have h1 : isNumericCol t i = true := by
      have := hmem.2
      simp only [Bool.and_eq_true] at this
      exact this.1.1
    exact List.all_eq_true.mp h1
  exact ⟨by simp [update_map, hne, extractIndicator, hcol], rfl, rfl, rfl, rfl, hnum⟩

/-- Witness for C9 at the example table with the indicator GDP: India and
Ghana have GDP values, China has a missing one. -/
theorem C9_witness :
    update_map tEx 2020 "Iron" DataType.Combined (some "GDP")
      = .ok (indicatorView (filterByYear tEx.rows 2020) "GDP")
    ∧ (indicatorView (filterByYear tEx.rows 2020) "GDP").entries
        = (filterByYear tEx.rows 2020).filterMap (fun r =>
            match r.country, r.cell "GDP" with
            | some c, Cell.num v => some (c, v)
            | _, _ => none)
    ∧ (indicatorView (filterByYear tEx.rows 2020) "GDP").custom = none
    ∧ (indicatorView (filterByYear tEx.rows 2020) "GDP").hover
        = "<b>%\x7blocation\x7d</b><br>" ++ "GDP" ++ ": %\x7bz:,.2f\x7d<extra></extra>"
    ∧ (indicatorView (filterByYear tEx.rows 2020) "GDP").colorbar = "GDP" := by
  have h := C9_indicator_extraction tEx 2020 "Iron" DataType.Combined "GDP"
    (by decide) (by decide)
  exact ⟨h.1, h.2.1, h.2.2.1, h.2.2.2.1, h.2.2.2.2.1⟩

/-- Claim C10. The all-minerals scope is a comparison against the literal
sentinel string: when the requested mineral equals it, both row scopes are
the whole year slice with no mineral filter, even when the table itself
contains a mineral literally named like the sentinel — such a mineral can
never be viewed in isolation. -/
theorem C10_sentinel_shadows_mineral (t : Table) (y : ℚ) (dt : DataType)
    (_h : ∃ r ∈ t.rows, r.prodMineral = some allMineralsSentinel
          ∨ r.impMineral = some allMineralsSentinel) :
    prodScope t y allMineralsSentinel = filterByYear t.rows y
    ∧ impScope t y allMineralsSentinel = filterByYear t.rows y
    ∧ update_map t y allMineralsSentinel dt none
        = .ok (aggregateScoped (filterByYear t.rows y) (filterByYear t.rows y) dt) := by
  refine ⟨by simp [prodScope], by simp [impScope], ?_⟩
  simp [update_map, mineralView, prodScope, impScope]

/-- Witness for C10: a table whose only production mineral is literally
named like the sentinel. -/
theorem C10_witness :
    prodScope tSentinel 2020 allMineralsSentinel = filterByYear tSentinel.rows 2020
    ∧ impScope tSentinel 2020 allMineralsSentinel = filterByYear tSentinel.rows 2020
    ∧ update_map tSentinel 2020 allMineralsSentinel DataType.Production none
        = .ok (aggregateScoped (filterByYear tSentinel.rows 2020)
            (filterByYear tSentinel.rows 2020) DataType.Production) :=
  C10_sentinel_shadows_mineral tSentinel 2020 DataType.Production (by decide)

end MAP
